import Mathlib

/-!
Verification development for the opustools repository (Django + Celery file
conversion service). The definitions below are a shallow embedding of the
job-processing core: the Celery tasks `process_image_task`
(image_tool/tasks.py) and `process_file_task` (pdf_tool/tasks.py), the
session-quota permission class `HasConversionAllowance`
(image_tool/permissions.py, pdf_tool/permissions.py identical logic), and the
submission view flow (image_tool/views.py).

External effects are modelled explicitly: the database record of a job is
passed in and returned (`Option` = record may not exist, as in
`Job.objects.get` raising `DoesNotExist`), file-system and external-tool
outcomes come from an environment record, and every `job.save()` call is
collected in a `saves` trace.  Machine integers are Nat/Int (Python ints are
unbounded).  Python exceptions are modelled as the explicit failure branches
the source's try/except structure produces.
-/

deriving instance DecidableEq for Except

namespace OpusTools

/-! ## Small Python string/path helpers (structural, kernel-reducible) -/

/-- Python whitespace characters relevant to `str.strip()` / `int()`. -/
def isPyWs (c : Char) : Bool :=
  c = ' ' || c = '\t' || c = '\n' || c = '\r' || c = '\x0b' || c = '\x0c'

/-- `str.strip()` on a char list. -/
def stripChars (cs : List Char) : List Char :=
  ((cs.dropWhile isPyWs).reverse.dropWhile isPyWs).reverse

/-- Python `s.strip()`. -/
def pyStrip (s : String) : String := String.mk (stripChars s.toList)

/-- Split a char list on a separator char, Python `str.split(sep)` semantics
(an empty input yields one empty token). -/
def splitChar (sep : Char) : List Char → List (List Char)
  | [] => [[]]
  | c :: rest =>
    match splitChar sep rest with
    | [] => [[]]
    | g :: gs => if c = sep then [] :: g :: gs else (c :: g) :: gs

/-- Python `s.split(sep)` for a one-character separator. -/
def pySplit (sep : Char) (s : String) : List String :=
  (splitChar sep s.toList).map String.mk

/-- Python `s.upper()` (ASCII, which is all the source compares). -/
def pyUpper (s : String) : String := String.mk (s.toList.map Char.toUpper)

/-- Python `s.lower()` (ASCII). -/
def pyLower (s : String) : String := String.mk (s.toList.map Char.toLower)

/-- Python `s.endswith(suf)`. -/
def pyEndsWith (s suf : String) : Bool :=
  s.toList.reverse.take suf.toList.length == suf.toList.reverse

/-- Numeric value of a digit list (most significant first). -/
def digitsVal (cs : List Char) : Nat := cs.foldl (fun n c => n * 10 + (c.toNat - 48)) 0

/-- Python `int(s)` restricted to what the repository can receive: optional
surrounding whitespace, an optional single sign, then decimal digits.
CPython additionally accepts underscore digit grouping, which is not
modelled (no claim involves it). Returns `none` where `int()` raises
`ValueError`. -/
def py_int (s : String) : Option Int :=
  match (pyStrip s).toList with
  | [] => none
  | c :: rest =>
    let signed : Bool := c = '-' || c = '+'
    let ds : List Char := if signed then rest else c :: rest
    if ds.isEmpty then none
    else if ds.all Char.isDigit then
      if c = '-' then some (-(digitsVal ds : Int)) else some (digitsVal ds)
    else none

/-- Decimal digits of a Nat via explicit fuel (kernel-reducible). -/
def natDigitsAux : Nat → Nat → List Char
  | 0, _ => []
  | fuel + 1, n =>
    if n < 10 then [Nat.digitChar n]
    else natDigitsAux fuel (n / 10) ++ [Nat.digitChar (n % 10)]

/-- Decimal string of a Nat. -/
def natStr (n : Nat) : String := String.mk (natDigitsAux (n + 1) n)

/-- Decimal string of an Int, as Python `str(i)` / f-string interpolation. -/
def intStr : Int → String
  | Int.ofNat n => natStr n
  | Int.negSucc n => "-" ++ natStr (n + 1)

/-- `os.path.basename` for forward-slash paths. -/
def basename (p : String) : String := (pySplit '/' p).getLastD ""

/-- `os.path.splitext(f)[0]`: drop the extension at the last dot, where the
leading dots of the name never start an extension (Python semantics:
`splitext(".bashrc") = (".bashrc", "")`). -/
def splitextRoot (f : String) : String :=
  let cs := f.toList
  let lead := (cs.takeWhile (fun c => c = '.')).length
  let rest := cs.drop lead
  if rest.contains '.' then
    String.mk (cs.take lead ++ ((rest.reverse.dropWhile (fun c => c ≠ '.')).drop 1).reverse)
  else f

/-- `os.path.join a b` for the shapes the source produces: `b` absolute
resets, a trailing slash on `a` is not doubled. -/
def pathJoin (a b : String) : String :=
  if b.toList.head? = some '/' then b
  else if a = "" then b
  else if a.toList.getLast? = some '/' then a ++ b
  else a ++ "/" ++ b

/-- Modelled from the spec: the shared storage root (`settings.MEDIA_ROOT`);
the Django settings module is not under src/, only its use sites are. The
concrete value is irrelevant to every theorem below. -/
def MEDIA_ROOT : String := "/srv/media"

/-- Modelled from the spec: the public URL root (`settings.MEDIA_URL`)
mirroring the storage root; settings module not under src/. -/
def MEDIA_URL : String := "/media/"

/-! ## Job status (shared by both tools, models.py STATUS_CHOICES) -/

/-- The four job statuses of `ImageConversionJob.STATUS_CHOICES` and
`PdfToolJob.STATUS_CHOICES`. -/
inductive Status
  | PENDING
  | PROCESSING
  | COMPLETED
  | FAILED
deriving DecidableEq, Repr

/-! ## image_tool embedding (image_tool/tasks.py) -/

/-- `ImageConversionJob.FORMAT_CHOICES` first components (models.py 79-86). -/
def FORMAT_CHOICES : List String := ["JPEG", "PNG", "WEBP", "GIF", "BMP", "TIFF"]

/-- Resize dimension selection, image_tool/tasks.py lines 72-86. Python
computes the derived dimension as `int(other * (given / source_given))` in
float arithmetic; for positive operands (and wherever the float quotient is
exact, which covers every input appearing in a theorem below) this is the
truncated quotient `other * given / source_given` in Nat division. When
neither width nor height is given no resize happens and the source
dimensions pass through. -/
def resize_dims (width height : Option Nat) (ow oh : Nat) : Nat × Nat :=
  match width, height with
  | some w, some h => (w, h)
  | some w, none => (w, oh * w / ow)
  | none, some h => (ow * h / oh, h)
  | none, none => (ow, oh)

/-- Output format selection, image_tool/tasks.py lines 88-99: an explicitly
given (truthy) target_format wins, else the PIL-detected source format; a
missing result or one outside FORMAT_CHOICES falls back to JPEG, else it is
uppercased. -/
def get_output_format (target_format original_format : Option String) : String :=
  let output : Option String :=
    match target_format with
    | some t => if t = "" then original_format else some (pyUpper t)
    | none => original_format
  match output with
  | none => "JPEG"
  | some f => if FORMAT_CHOICES.contains (pyUpper f) then pyUpper f else "JPEG"

/-- The task arguments of `process_image_task` (passed by
ImageConversionView.post, views.py 39-47). tool_type is accepted but never
read by the task body, so it is omitted. -/
structure ImageArgs where
  file_path : String
  quality : Option Nat
  width : Option Nat
  height : Option Nat
  target_format : Option String
deriving DecidableEq, Repr

/-- The fields of the `ImageConversionJob` row the task reads or writes. -/
structure ImageJobRec where
  id : String
  status : Status
  output_url : Option String
  error_message : Option String
deriving DecidableEq, Repr

/-- Environment of one image-task invocation: file-system and PIL outcomes.
`err_detail` is the text of whatever exception an unavailable resource
raises (interpolated into the stored error message). -/
structure ImageEnv where
  source_exists : Bool
  open_ok : Bool
  orig_width : Nat
  orig_height : Nat
  orig_format : Option String
  save_ok : Bool
  err_detail : String
deriving DecidableEq, Repr

/-- An image file written by the task: its job directory, filename, pixel
dimensions and format. -/
structure SavedImage where
  rel_dir : String
  name : String
  width : Nat
  height : Nat
  format : String
deriving DecidableEq, Repr

/-- Observable outcome of one task invocation: the final DB record (none if
the record did not exist), the trace of `job.save()` calls, and the files
written. -/
structure ImageRunOut where
  job : Option ImageJobRec
  saves : List ImageJobRec
  outputs : List SavedImage
deriving DecidableEq, Repr

/-- Does the resize expression divide by zero (Python would raise
ZeroDivisionError, caught by the generic handler)? -/
def resize_zero_div (a : ImageArgs) (env : ImageEnv) : Bool :=
  (a.width.isSome && a.height.isNone && (env.orig_width == 0)) ||
  (a.height.isSome && a.width.isNone && (env.orig_height == 0))

/-- Record state written by the two `job.save()` calls of a failing image
run: PROCESSING first, then FAILED with the handler's message. -/
def image_fail (j1 : ImageJobRec) (msg : String) : ImageRunOut :=
  ⟨some { j1 with status := Status.FAILED, error_message := some msg },
   [j1, { j1 with status := Status.FAILED, error_message := some msg }], []⟩

/-- Generic-handler message, image_tool/tasks.py line 199. -/
def imgMsgInternal (d : String) : String :=
  "Processing failed due to an internal error: " ++ d

/-- FileNotFoundError-handler message, image_tool/tasks.py line 193. -/
def imgMsgNotFound (d : String) : String :=
  "Processing failed: Source file not found or accessible. Error: " ++ d

/-- Shallow embedding of `process_image_task` (image_tool/tasks.py 39-200).
Control flow: fetch record (DoesNotExist aborts silently), save PROCESSING,
check source file (FileNotFoundError branch, lines 189-194), open with PIL,
resize, choose output format, save as `processed_<base>.<ext>` under
`image_tool_processed/<job id>`, store the MEDIA_URL-joined download URL and
COMPLETED; any other exception lands in the generic handler (195-200). -/
def process_image_task (env : ImageEnv) (a : ImageArgs) (rec? : Option ImageJobRec) :
    ImageRunOut :=
  match rec? with
  | none => ⟨none, [], []⟩
  | some j0 =>
    let j1 := { j0 with status := Status.PROCESSING }
    if env.source_exists then
      if env.open_ok then
        if resize_zero_div a env then
          image_fail j1 (imgMsgInternal env.err_detail)
        else
          let dims := resize_dims a.width a.height env.orig_width env.orig_height
          let fmt := get_output_format a.target_format env.orig_format
          let outName := "processed_" ++ splitextRoot (basename a.file_path) ++ "." ++ pyLower fmt
          let relDir := pathJoin "image_tool_processed" j0.id
          if env.save_ok then
            let url := pathJoin (pathJoin MEDIA_URL relDir) outName
            let jc := { j1 with status := Status.COMPLETED, output_url := some url }
            ⟨some jc, [j1, jc], [⟨relDir, outName, dims.1, dims.2, fmt⟩]⟩
          else
            image_fail j1 (imgMsgInternal env.err_detail)
      else
        image_fail j1 (imgMsgInternal env.err_detail)
    else
      image_fail j1 (imgMsgNotFound env.err_detail)

/-! ## pdf_tool embedding (pdf_tool/tasks.py) -/

/-- `PdfToolJob.TOOL_TYPE_CHOICES` (pdf_tool/models.py 69-74); the model
restricts tool_type to these four variants, which process_file_task
dispatches on. -/
inductive PdfTool
  | pdf_converter
  | file_compressor
  | pdf_merger
  | pdf_splitter
deriving DecidableEq, Repr

/-- One uploaded file of a pdf job: its stored path relative to MEDIA_ROOT
(`f.file.name`) and its page count as pypdf would read it. -/
structure PdfFile where
  path : String
  pages : Nat
deriving DecidableEq, Repr

/-- A value of the `merge_order` JSONField as the task can find it in the
row: either JSON text, or an already-parsed Python list of names — the
latter is what `PdfToolJobSerializer.create` stores
(pdf_tool/serializers.py 39-46 runs `json.loads` on a string merge_order
before `PdfToolJob.objects.create`), so every merge job submitted through
the API carries a list here. Other JSON shapes (numbers, objects) are not
modelled; no claim involves them. -/
inductive MergeOrderVal
  | str (s : String)
  | list (names : List String)
deriving DecidableEq, Repr

/-- Python truthiness of a merge_order value (`if not merge_order`,
tasks.py 219): the empty string and the empty list are falsy. -/
def merge_order_falsy : MergeOrderVal → Bool
  | MergeOrderVal.str s => s = ""
  | MergeOrderVal.list names => names.isEmpty

/-- The fields of a `PdfToolJob` row the task reads or writes
(pdf_tool/models.py 82-136). merge_order is the JSONField value, which for
API-submitted jobs is a parsed list (see MergeOrderVal). -/
structure PdfJobRec where
  id : String
  tool_type : PdfTool
  target_format : Option String
  compression_level : Option String
  page_ranges : Option String
  merge_order : Option MergeOrderVal
  uploaded_files : List PdfFile
  status : Status
  output_url : Option String
  error_message : Option String
deriving DecidableEq, Repr

/-- Environment of one pdf-task invocation: which source paths exist on
disk, whether the wrapped external tools (pdf2docx, tabula, pdf2image,
Ghostscript) succeed, whether plain file I/O (pypdf reads/writes, zipping)
succeeds, and the exception text used in stored messages. -/
structure PdfEnv where
  source_exists : String → Bool
  ext_ok : Bool
  io_ok : Bool
  err_detail : String

/-- Observable outcome of one pdf-task invocation: final record, trace of
`job.save()` calls, the artifact files still present in the job directory
when the task returns, the per-interval split files written before being
zipped and removed, and the input documents appended by a merge in order. -/
structure PdfRunOut where
  job : Option PdfJobRec
  saves : List PdfJobRec
  final_files : List String
  split_pieces : List String
  merged_docs : List PdfFile
deriving DecidableEq, Repr

/-- Record state written by a failing pdf run: PROCESSING first, then FAILED
with the given message (both the exception handlers at tasks.py 364-377 and
the direct `job.status = 'FAILED'` branches have this save shape). -/
def pdf_fail (j1 : PdfJobRec) (msg : String) : PdfRunOut :=
  ⟨some { j1 with status := Status.FAILED, error_message := some msg },
   [j1, { j1 with status := Status.FAILED, error_message := some msg }], [], [], []⟩

/-- Record state written by a completing pdf run: the stored output URL is
the MEDIA_URL-joined path of `name` inside `pdf_tool_processed/<job id>`
(tasks.py 48, 125, 135, 201, 251, 357). -/
def pdf_complete (j1 : PdfJobRec) (name : String) (pieces : List String)
    (docs : List PdfFile) : PdfRunOut :=
  let url := pathJoin (pathJoin MEDIA_URL (pathJoin "pdf_tool_processed" j1.id)) name
  let jc := { j1 with status := Status.COMPLETED, output_url := some url }
  ⟨some jc, [j1, jc], [name], pieces, docs⟩

/-- Top-level generic-handler message, pdf_tool/tasks.py line 376. -/
def pdfMsgInternal (d : String) : String :=
  "Processing failed due to an internal error: " ++ d

/-- FileNotFoundError-handler message, pdf_tool/tasks.py line 370. -/
def pdfMsgNotFound (d : String) : String :=
  "Processing failed: Source file not found. Error: " ++ d

/-- The pdf_converter branch, tasks.py 55-139: single source file, dispatch
on target_format. DOCX/XLSX/PPTX produce `converted_<base>.<ext>`; JPG
renders pages to images and archives them as `converted_<base>.zip`
(removing the page images, 116-123); an unrecognised format raises
ValueError (line 132); a missing target_format raises AttributeError at
`target_format.lower()` (line 69), landing in the generic handler. -/
def converter_run (env : PdfEnv) (j1 : PdfJobRec) : PdfRunOut :=
  match j1.uploaded_files with
  | [] => pdf_fail j1 (pdfMsgInternal "No file provided for PDF conversion.")
  | f :: _ =>
    if env.source_exists f.path then
      match j1.target_format with
      | none => pdf_fail j1 (pdfMsgInternal env.err_detail)
      | some tf =>
        let base := splitextRoot (basename f.path)
        if pyUpper tf = "DOCX" || pyUpper tf = "XLSX" || pyUpper tf = "PPTX" then
          if env.ext_ok then pdf_complete j1 ("converted_" ++ base ++ "." ++ pyLower tf) [] []
          else pdf_fail j1 (pdfMsgInternal env.err_detail)
        else if pyUpper tf = "JPG" then
          if env.ext_ok then pdf_complete j1 ("converted_" ++ base ++ ".zip") [] []
          else pdf_fail j1 (pdfMsgInternal env.err_detail)
        else pdf_fail j1 (pdfMsgInternal ("Unsupported target format: " ++ tf))
    else
      pdf_fail j1 (pdfMsgNotFound ("Source file does not exist at " ++ pathJoin MEDIA_ROOT f.path))

/-- The per-file compression loop, tasks.py 159-188: each file must be named
`*.pdf` and exist, then Ghostscript writes `compressed_<base>.pdf`; the
first failure aborts the whole job with the corresponding handler message. -/
def compress_loop (env : PdfEnv) : List PdfFile → Except String (List String)
  | [] => Except.ok []
  | f :: rest =>
    if pyEndsWith (pyLower f.path) ".pdf" then
      if env.source_exists f.path then
        if env.ext_ok then
          match compress_loop env rest with
          | Except.ok names =>
            Except.ok (("compressed_" ++ splitextRoot (basename f.path) ++ ".pdf") :: names)
          | Except.error e => Except.error e
        else Except.error (pdfMsgInternal ("PDF compression failed: " ++ env.err_detail))
      else
        Except.error (pdfMsgNotFound ("Source file does not exist: " ++ pathJoin MEDIA_ROOT f.path))
    else
      Except.error (pdfMsgInternal ("File " ++ pathJoin MEDIA_ROOT f.path ++ " is not a PDF."))

/-- The file_compressor branch, tasks.py 141-210: requires files and a
truthy compression_level (the level only selects Ghostscript options and
does not change any observable modelled here); several compressed files are
archived as `compressed_files.zip` with the individual files removed
(190-199), a single one is exposed directly (202-205). -/
def compressor_run (env : PdfEnv) (j1 : PdfJobRec) : PdfRunOut :=
  match j1.uploaded_files with
  | [] => pdf_fail j1 (pdfMsgInternal "No files provided for PDF compression.")
  | f :: rest =>
    match j1.compression_level with
    | none => pdf_fail j1 (pdfMsgInternal "No compression level specified for the job.")
    | some lv =>
      if lv = "" then pdf_fail j1 (pdfMsgInternal "No compression level specified for the job.")
      else
        match compress_loop env (f :: rest) with
        | Except.error msg => pdf_fail j1 msg
        | Except.ok [] => pdf_fail j1 (pdfMsgInternal env.err_detail)
        | Except.ok [n] => pdf_complete j1 n [] []
        | Except.ok (n :: m :: more) =>
          let _ := (n, m, more)
          pdf_complete j1 "compressed_files.zip" [] []

/-- `file_path_map` of tasks.py line 231: basename-keyed map of the
uploaded paths; a Python dict comprehension keeps the last entry on
duplicate basenames. -/
def file_path_map (files : List PdfFile) : List (String × PdfFile) :=
  files.map (fun f => (basename f.path, f))

/-- Dict lookup with last-wins semantics for duplicate keys. -/
def map_lookup (m : List (String × PdfFile)) (k : String) : Option PdfFile :=
  ((m.filter (fun p => p.1 = k)).getLast?).map (fun p => p.2)

/-- The documents a merge actually appends, tasks.py 239-243: the
merge_order names in order, each resolved through file_path_map, names
absent from the uploads skipped (with a logged warning). -/
def resolve_merge (files : List PdfFile) (names : List String) : List PdfFile :=
  names.filterMap (fun n => map_lookup (file_path_map files) n)

/-- Minimal model of `json.loads` restricted to JSON arrays of plain
strings (the shape merge_order carries). String escape sequences and
non-string elements are not modelled and yield none. Expects a leading
parsed string; consumes trailing input. -/
def jsonWsDrop (cs : List Char) : List Char :=
  cs.dropWhile (fun c => c = ' ' || c = '\t' || c = '\n' || c = '\r')

/-- Parse one JSON string literal (no escapes), returning it and the rest. -/
def jsonStringAux : List Char → List Char → Option (String × List Char)
  | [], _ => none
  | c :: rest, acc =>
    if c = '"' then some (String.mk acc.reverse, rest)
    else if c = '\\' then none
    else jsonStringAux rest (c :: acc)

/-- Parse the items of a JSON string array after the opening bracket. -/
def jsonItemsAux : Nat → List Char → List String → Option (List String)
  | 0, _, _ => none
  | fuel + 1, cs, acc =>
    match cs with
    | '"' :: rest =>
      match jsonStringAux rest [] with
      | none => none
      | some (s, rest2) =>
        match jsonWsDrop rest2 with
        | ']' :: tail => if jsonWsDrop tail = [] then some (s :: acc).reverse else none
        | ',' :: tail => jsonItemsAux fuel (jsonWsDrop tail) (s :: acc)
        | _ => none
    | _ => none

/-- `json.loads` for a JSON array of strings; none models JSONDecodeError. -/
def json_loads_list (s : String) : Option (List String) :=
  match jsonWsDrop s.toList with
  | '[' :: rest =>
    match jsonWsDrop rest with
    | ']' :: tail => if jsonWsDrop tail = [] then some [] else none
    | cs => jsonItemsAux (cs.length + 1) cs []
  | _ => none

/-- The pdf_merger branch, tasks.py 213-255: needs at least two files and a
truthy merge_order; then `json.loads(merge_order)` runs. On a list-valued
merge_order — the value the serializer stores for every API-submitted merge
job — `json.loads` raises `TypeError: the JSON object must be str, bytes
or bytearray, not list`, which the `except json.JSONDecodeError` at 224-228
does not catch, so it lands in the top-level generic handler (372-377) and
the job FAILS before the merge loop. On a string value, a decode failure is
a direct FAILED (225-228); otherwise the resolved documents are appended in
merge_order order into `merged_document.pdf` and the job completes. -/
def merger_run (env : PdfEnv) (j1 : PdfJobRec) : PdfRunOut :=
  if j1.uploaded_files.length < 2 then
    pdf_fail j1 (pdfMsgInternal "Merging requires at least two PDF files.")
  else
    match j1.merge_order with
    | none => pdf_fail j1 (pdfMsgInternal "Merge order is required for PDF merging jobs.")
    | some mo =>
      if merge_order_falsy mo then
        pdf_fail j1 (pdfMsgInternal "Merge order is required for PDF merging jobs.")
      else
        match mo with
        | MergeOrderVal.list _ =>
          pdf_fail j1 (pdfMsgInternal "the JSON object must be str, bytes or bytearray, not list")
        | MergeOrderVal.str s =>
          match json_loads_list s with
          | none => pdf_fail j1 ("Invalid merge_order format: " ++ env.err_detail)
          | some names =>
            if env.io_ok then
              pdf_complete j1 "merged_document.pdf" [] (resolve_merge j1.uploaded_files names)
            else pdf_fail j1 (pdfMsgInternal env.err_detail)

/-- The page-range token loop of tasks.py 289-317, over the comma-split
tokens: empty tokens are skipped; a token containing exactly one hyphen is a
range whose halves must be nonblank ints with start ≤ end and
1 ≤ start, end ≤ num_pages; any other token must be an int in
[1, num_pages]; the first bad token aborts with the ValueError text. -/
def parse_ranges_loop (numPages : Nat) : List String → List (Int × Int) →
    Except String (List (Int × Int))
  | [], acc => Except.ok acc.reverse
  | p :: rest, acc =>
    let part := pyStrip p
    if part = "" then parse_ranges_loop numPages rest acc
    else if part.toList.contains '-' && (part.toList.filter (fun c => c = '-')).length == 1 then
      match pySplit '-' part with
      | [a, b] =>
        if pyStrip a = "" || pyStrip b = "" then
          Except.error ("Invalid range format: " ++ part)
        else
          match py_int a, py_int b with
          | some st, some en =>
            if st > en then
              Except.error ("Start page " ++ intStr st ++ " cannot be greater than end page " ++ intStr en)
            else if st < 1 || en > (numPages : Int) then
              Except.error ("Page range " ++ intStr st ++ "-" ++ intStr en ++
                " is out of bounds. PDF has " ++ natStr numPages ++ " pages.")
            else parse_ranges_loop numPages rest ((st, en) :: acc)
          | _, _ => Except.error ("invalid literal for int with base 10: " ++ part)
      | _ => Except.error ("Invalid range format: " ++ part)
    else
      match py_int part with
      | some pg =>
        if pg < 1 || pg > (numPages : Int) then
          Except.error ("Page " ++ intStr pg ++ " is out of bounds. PDF has " ++ natStr numPages ++ " pages.")
        else parse_ranges_loop numPages rest ((pg, pg) :: acc)
      | none => Except.error ("invalid literal for int with base 10: " ++ part)

/-- Parse and validate a page_ranges string against a page count
(tasks.py 288-317). -/
def parse_page_ranges (s : String) (numPages : Nat) : Except String (List (Int × Int)) :=
  parse_ranges_loop numPages (pySplit ',' s) []

/-- Name of one split output interval, tasks.py 326-330. -/
def split_piece_name (base : String) : Int × Int → String
  | (st, en) =>
    if st = en then base ++ "_page_" ++ intStr st ++ ".pdf"
    else base ++ "_pages_" ++ intStr st ++ "-" ++ intStr en ++ ".pdf"

/-- The pdf_splitter branch, tasks.py 259-361: exactly one existing source
file and a truthy page_ranges are required (direct FAILED branches
otherwise); a parse error is FAILED with `Invalid page range format: ...`
and nothing written; on success one file per interval is written, archived
into `split_<base>.zip`, and the per-interval files are removed. -/
def splitter_run (env : PdfEnv) (j1 : PdfJobRec) : PdfRunOut :=
  match j1.uploaded_files with
  | [f] =>
    if env.source_exists f.path then
      match j1.page_ranges with
      | none => pdf_fail j1 "Page ranges are required for PDF splitting jobs."
      | some s =>
        if s = "" then pdf_fail j1 "Page ranges are required for PDF splitting jobs."
        else if env.io_ok then
          match parse_page_ranges s f.pages with
          | Except.error e => pdf_fail j1 ("Invalid page range format: " ++ e)
          | Except.ok rs =>
            let base := splitextRoot (basename f.path)
            pdf_complete j1 ("split_" ++ base ++ ".zip") (rs.map (split_piece_name base)) []
        else pdf_fail j1 (pdfMsgInternal env.err_detail)
    else
      pdf_fail j1 ("Source file does not exist at " ++ pathJoin MEDIA_ROOT f.path)
  | _ => pdf_fail j1 "Splitting requires exactly one PDF file."

/-- Shallow embedding of `process_file_task` (pdf_tool/tasks.py 27-377):
fetch the record (DoesNotExist aborts silently, line 364-365), save
PROCESSING, dispatch on tool_type; every exception of a branch is caught by
the top-level handlers (366-377). -/
def process_file_task (env : PdfEnv) (rec? : Option PdfJobRec) : PdfRunOut :=
  match rec? with
  | none => ⟨none, [], [], [], []⟩
  | some j0 =>
    let j1 := { j0 with status := Status.PROCESSING }
    match j1.tool_type with
    | PdfTool.pdf_converter => converter_run env j1
    | PdfTool.file_compressor => compressor_run env j1
    | PdfTool.pdf_merger => merger_run env j1
    | PdfTool.pdf_splitter => splitter_run env j1

/-! ## Session quota and submission view
(image_tool/permissions.py, image_tool/views.py; pdf_tool has the identical
permission logic on a separate session key) -/

/-- The per-session counts dict (`session['conversion_counts']`): calendar
date string to number of quota-consuming POSTs. -/
abbrev Counts := List (String × Nat)

/-- Python `counts.get(day, 0)`. -/
def getCount : Counts → String → Nat
  | [], _ => 0
  | (k, v) :: rest, key => if k = key then v else getCount rest key

/-- Python `counts[day] = v` (update in place or append). -/
def setCount : Counts → String → Nat → Counts
  | [], key, v => [(key, v)]
  | (k, w) :: rest, key, v =>
    if k = key then (key, v) :: rest else (k, w) :: setCount rest key v

/-- `UNAUTH_CONVERSION_LIMIT` (image_tool/permissions.py line 28,
pdf_tool/permissions.py line 30). -/
def UNAUTH_CONVERSION_LIMIT : Nat := 2

/-- Outcome of a DRF permission check: granted, or PermissionDenied raised
(rendered by DRF as HTTP 403 with code conversion_limit_exceeded). -/
inductive PermResult
  | granted
  | denied
deriving DecidableEq, Repr

/-- `HasConversionAllowance.has_permission`
(image_tool/permissions.py 14-44): authenticated callers always pass with
no session change; an unauthenticated POST below the limit increments the
day's count then passes; at or above the limit PermissionDenied is raised;
non-POST methods always pass unchanged. -/
def has_permission (isAuth : Bool) (method : String) (today : String) (counts : Counts) :
    PermResult × Counts :=
  if isAuth then (PermResult.granted, counts)
  else
    let c := getCount counts today
    if method = "POST" then
      if c ≥ UNAUTH_CONVERSION_LIMIT then (PermResult.denied, counts)
      else (PermResult.granted, setCount counts today (c + 1))
    else (PermResult.granted, counts)

/-- `ImageConversionView.post` composed with the DRF dispatch order
(permission check runs before the handler): a denied check is HTTP 403;
otherwise the serializer validates the parameters and the view returns 202
(job created and task enqueued) or 400 (field errors). `valid` is the
outcome of `serializer.is_valid()` (views.py 33-51). -/
def image_conversion_post (isAuth : Bool) (today : String) (valid : Bool) (counts : Counts) :
    Nat × Counts :=
  match has_permission isAuth "POST" today counts with
  | (PermResult.denied, counts1) => (403, counts1)
  | (PermResult.granted, counts1) => if valid then (202, counts1) else (400, counts1)

/-- What `PdfToolJobSerializer.create` stores in the merge_order JSONField
(pdf_tool/serializers.py 39-46): a truthy string is parsed with
`json.loads` and the resulting Python list is stored; an undecodable
string raises ValidationError (HTTP 400, no record created, modelled as
the error case); None and the empty string are stored unchanged. JSON
text denoting something other than an array of strings is outside the
json_loads_list model and also maps to the error case here; no claim
involves such input. -/
def serializer_merge_order : Option String → Except Unit (Option MergeOrderVal)
  | none => Except.ok none
  | some s =>
    if s = "" then Except.ok (some (MergeOrderVal.str ""))
    else
      match json_loads_list s with
      | some names => Except.ok (some (MergeOrderVal.list names))
      | none => Except.error ()

/-- Shape of a pdf branch outcome: a failure write with a nonempty message,
or a completion write. -/
def PdfShape (j1 : PdfJobRec) (o : PdfRunOut) : Prop :=
  (∃ m, m ≠ "" ∧ o = pdf_fail j1 m) ∨ (∃ n p d, o = pdf_complete j1 n p d)

/-- Output filename the image task writes. -/
def image_out_name (a : ImageArgs) (env : ImageEnv) : String :=
  "processed_" ++ splitextRoot (basename a.file_path) ++ "." ++
    pyLower (get_output_format a.target_format env.orig_format)

/-! ## Shared concrete fixtures for witnesses and counterexamples -/

/-- A fresh image job record as the submission endpoint creates it
(PENDING, no output, no error). -/
def imgRecPending : ImageJobRec := ⟨"j1", Status.PENDING, none, none⟩

/-- Task arguments of a resize job: width 200 only, on photo.png. -/
def imgArgsResize : ImageArgs := ⟨"image_tool_uploads/u1/photo.png", none, some 200, none, none⟩

/-- A healthy environment for a 400 by 300 PNG source. -/
def imgEnvOk : ImageEnv := ⟨true, true, 400, 300, some "PNG", true, "e"⟩

/-- An environment whose source file is missing. -/
def imgEnvNoFile : ImageEnv := ⟨false, true, 400, 300, some "PNG", true, "gone"⟩

/-- A healthy pdf environment: every path exists, external tools and I/O
succeed. -/
def pdfEnvOk : PdfEnv := ⟨fun _ => true, true, true, "e"⟩

/-- A pending splitter job on one uploaded file. -/
def mkSplitJob (id : String) (f : PdfFile) (ranges : String) : PdfJobRec :=
  ⟨id, PdfTool.pdf_splitter, none, none, some ranges, none, [f], Status.PENDING, none, none⟩

/-- A pending merger job over the given uploads whose merge_order field
holds JSON text — the state tasks.py 223 expects, reachable only when the
stored JSONField value is a string (a double-encoded submission). -/
def mkMergeJob (id : String) (files : List PdfFile) (mo : String) : PdfJobRec :=
  ⟨id, PdfTool.pdf_merger, none, none, none, some (MergeOrderVal.str mo), files,
    Status.PENDING, none, none⟩

/-- A pending merger job as the API actually creates it: the serializer has
already parsed the submitted JSON text, so the merge_order field holds the
list itself. -/
def mkMergeJobSubmitted (id : String) (files : List PdfFile) (names : List String) : PdfJobRec :=
  ⟨id, PdfTool.pdf_merger, none, none, none, some (MergeOrderVal.list names), files,
    Status.PENDING, none, none⟩

/-- A 12-page uploaded document. -/
def doc12 : PdfFile := ⟨"pdf_tool_uploads/u1/doc.pdf", 12⟩

/-- Uploads a.pdf (2 pages) and b.pdf (3 pages). -/
def fileA : PdfFile := ⟨"pdf_tool_uploads/u2/a.pdf", 2⟩

/-- Second merge upload. -/
def fileB : PdfFile := ⟨"pdf_tool_uploads/u3/b.pdf", 3⟩

/-- A 3-page uploaded document. -/
def doc3 : PdfFile := ⟨"pdf_tool_uploads/u4/doc.pdf", 3⟩

/-- The record a successful first image run produces on fixture j1. -/
def c1ImgFinal : ImageJobRec :=
  ⟨"j1", Status.COMPLETED, some "/media/image_tool_processed/j1/processed_photo.png", none⟩

/-- A job record already in the COMPLETED terminal state (image tool). -/
def imgRecCompleted : ImageJobRec :=
  ⟨"j1", Status.COMPLETED, some "/media/image_tool_processed/j1/processed_photo.png", none⟩

/-- A pdf splitter job record already COMPLETED. -/
def pdfRecCompleted : PdfJobRec :=
  ⟨"j2", PdfTool.pdf_splitter, none, none, some "1-5", none, [doc12],
    Status.COMPLETED, some "/media/pdf_tool_processed/j2/split_doc.zip", none⟩

/-- The dimension the spec formula prescribes for the derived side:
`round(source_other_dim * (given_dim / source_given_dim))`. -/
def spec_other_dim (source_given source_other given : ℕ) : ℤ :=
  round ((source_other * given : ℚ) / source_given)

/-- A 4 by 3 pixel source image environment. -/
def imgEnv43 : ImageEnv := ⟨true, true, 4, 3, some "PNG", true, "e"⟩

/-- Resize arguments giving only width 2. -/
def imgArgsW2 : ImageArgs := ⟨"image_tool_uploads/u1/photo.png", none, some 2, none, none⟩

/-- Is a page-range token well formed under the claim's grammar: after
stripping, empty (ignored), a bare run of digits, or two digit runs joined
by one hyphen with optional whitespace around it? -/
def spec_token_ok (t : String) : Bool :=
  let s := pyStrip t
  if s = "" then true
  else if !s.toList.isEmpty && s.toList.all Char.isDigit then true
  else
    match pySplit '-' s with
    | [a, b] =>
      (!(pyStrip a).toList.isEmpty && (pyStrip a).toList.all Char.isDigit) &&
      (!(pyStrip b).toList.isEmpty && (pyStrip b).toList.all Char.isDigit)
    | _ => false

/-- Decidable success test for a parse result. -/
def exceptOk {ε α : Type} : Except ε α → Bool
  | Except.ok _ => true
  | Except.error _ => false

/-- A pending converter job. -/
def mkConvJob (id : String) (f : PdfFile) (tf : String) : PdfJobRec :=
  ⟨id, PdfTool.pdf_converter, some tf, none, none, none, [f], Status.PENDING, none, none⟩

/-- A pending compressor job. -/
def mkCompJob (id : String) (files : List PdfFile) (lv : String) : PdfJobRec :=
  ⟨id, PdfTool.file_compressor, none, some lv, none, none, files, Status.PENDING, none, none⟩

/-! ## General lemmas: every run on an existing record ends terminal -/

/-- A string prepended with a nonempty literal is nonempty. -/
theorem string_append_ne_empty (s t : String) (hs : s ≠ "") : s ++ t ≠ "" := by
  intro h
  apply hs
  have h3 := congrArg String.data h
  rw [String.data_append] at h3
  have h4 : s.data = [] := (List.append_eq_nil.mp h3).1
  cases s with
  | mk d => simp only [String.data] at h4; rw [h4]

/-- The image generic-handler message is never empty. -/
theorem imgMsgInternal_ne_empty (d : String) : imgMsgInternal d ≠ "" :=
  string_append_ne_empty _ _ (by decide)

/-- The image FileNotFoundError message is never empty. -/
theorem imgMsgNotFound_ne_empty (d : String) : imgMsgNotFound d ≠ "" :=
  string_append_ne_empty _ _ (by decide)

/-- The pdf generic-handler message is never empty. -/
theorem pdfMsgInternal_ne_empty (d : String) : pdfMsgInternal d ≠ "" :=
  string_append_ne_empty _ _ (by decide)

/-- The pdf FileNotFoundError message is never empty. -/
theorem pdfMsgNotFound_ne_empty (d : String) : pdfMsgNotFound d ≠ "" :=
  string_append_ne_empty _ _ (by decide)

/-- Every invocation of the image task on an existing record ends with the
record either FAILED carrying a nonempty message over otherwise-unchanged
fields, or COMPLETED carrying an output URL over otherwise-unchanged
fields. -/
theorem image_run_shape (env : ImageEnv) (a : ImageArgs) (r : ImageJobRec) :
    (∃ m, m ≠ "" ∧ (process_image_task env a (some r)).job =
        some { r with status := Status.FAILED, error_message := some m }) ∨
    (∃ u, (process_image_task env a (some r)).job =
        some { r with status := Status.COMPLETED, output_url := some u }) := by
  cases hs : env.source_exists with
  | false =>
    refine Or.inl ⟨imgMsgNotFound env.err_detail, imgMsgNotFound_ne_empty _, ?_⟩
    simp [process_image_task, hs, image_fail]
  | true =>
    cases ho : env.open_ok with
    | false =>
      refine Or.inl ⟨imgMsgInternal env.err_detail, imgMsgInternal_ne_empty _, ?_⟩
      simp [process_image_task, hs, ho, image_fail]
    | true =>
      cases hz : resize_zero_div a env with
      | true =>
        refine Or.inl ⟨imgMsgInternal env.err_detail, imgMsgInternal_ne_empty _, ?_⟩
        simp [process_image_task, hs, ho, hz, image_fail]
      | false =>
        cases hv : env.save_ok with
        | false =>
          refine Or.inl ⟨imgMsgInternal env.err_detail, imgMsgInternal_ne_empty _, ?_⟩
          simp [process_image_task, hs, ho, hz, hv, image_fail]
        | true =>
          refine Or.inr ⟨pathJoin (pathJoin MEDIA_URL (pathJoin "image_tool_processed" r.id))
            ("processed_" ++ splitextRoot (basename a.file_path) ++ "." ++
              pyLower (get_output_format a.target_format env.orig_format)), ?_⟩
          simp [process_image_task, hs, ho, hz, hv]

/-- Errors of the compression loop are never empty. -/
theorem compress_loop_error_ne_empty (env : PdfEnv) (files : List PdfFile) (e : String)
    (h : compress_loop env files = Except.error e) : e ≠ "" := by
  induction files with
  | nil => simp [compress_loop] at h
  | cons f rest ih =>
    rw [compress_loop] at h
    by_cases h1 : pyEndsWith (pyLower f.path) ".pdf" = true
    · rw [if_pos h1] at h
      by_cases h2 : env.source_exists f.path = true
      · rw [if_pos h2] at h
        by_cases h3 : env.ext_ok = true
        · rw [if_pos h3] at h
          cases hc : compress_loop env rest with
          | ok names => rw [hc] at h; simp at h
          | error e2 =>
            rw [hc] at h
            simp only [Except.error.injEq] at h
            subst h
            exact ih hc
        · rw [if_neg h3] at h
          simp only [Except.error.injEq] at h
          subst h
          exact pdfMsgInternal_ne_empty _
      · rw [if_neg h2] at h
        simp only [Except.error.injEq] at h
        subst h
        exact pdfMsgNotFound_ne_empty _
    · rw [if_neg h1] at h
      simp only [Except.error.injEq] at h
      subst h
      exact pdfMsgInternal_ne_empty _

/-- The converter branch always produces a terminal shape. -/
theorem converter_run_shape (env : PdfEnv) (j1 : PdfJobRec) :
    PdfShape j1 (converter_run env j1) := by
  cases hf : j1.uploaded_files with
  | nil =>
    refine Or.inl ⟨_, pdfMsgInternal_ne_empty "No file provided for PDF conversion.", ?_⟩
    simp [converter_run, hf]
  | cons f rest =>
    by_cases hs : env.source_exists f.path = true
    · cases htf : j1.target_format with
      | none =>
        refine Or.inl ⟨_, pdfMsgInternal_ne_empty env.err_detail, ?_⟩
        simp [converter_run, hf, hs, htf]
      | some tf =>
        by_cases h1 : (pyUpper tf = "DOCX" || pyUpper tf = "XLSX" || pyUpper tf = "PPTX") = true
        · by_cases he : env.ext_ok = true
          · refine Or.inr ⟨"converted_" ++ splitextRoot (basename f.path) ++ "." ++ pyLower tf, [], [], ?_⟩
            simp [converter_run, hf, hs, htf, h1, he]
          · refine Or.inl ⟨_, pdfMsgInternal_ne_empty env.err_detail, ?_⟩
            simp [converter_run, hf, hs, htf, h1, he]
        · by_cases h2 : (pyUpper tf = "JPG")
          · by_cases he : env.ext_ok = true
            · refine Or.inr ⟨"converted_" ++ splitextRoot (basename f.path) ++ ".zip", [], [], ?_⟩
              simp [converter_run, hf, hs, htf, h1, h2, he]
            · refine Or.inl ⟨_, pdfMsgInternal_ne_empty env.err_detail, ?_⟩
              simp [converter_run, hf, hs, htf, h1, h2, he]
          · refine Or.inl ⟨"Processing failed due to an internal error: " ++
              ("Unsupported target format: " ++ tf), string_append_ne_empty _ _ (by decide), ?_⟩
            simp [converter_run, hf, hs, htf, h1, h2, pdfMsgInternal]
    · refine Or.inl ⟨_, pdfMsgNotFound_ne_empty ("Source file does not exist at " ++
        pathJoin MEDIA_ROOT f.path), ?_⟩
      simp [converter_run, hf, hs]

/-- The compressor branch always produces a terminal shape. -/
theorem compressor_run_shape (env : PdfEnv) (j1 : PdfJobRec) :
    PdfShape j1 (compressor_run env j1) := by
  cases hf : j1.uploaded_files with
  | nil =>
    refine Or.inl ⟨_, pdfMsgInternal_ne_empty "No files provided for PDF compression.", ?_⟩
    simp [compressor_run, hf]
  | cons f rest =>
    cases hl : j1.compression_level with
    | none =>
      refine Or.inl ⟨_, pdfMsgInternal_ne_empty "No compression level specified for the job.", ?_⟩
      simp [compressor_run, hf, hl]
    | some lv =>
      by_cases he : lv = ""
      · refine Or.inl ⟨_, pdfMsgInternal_ne_empty "No compression level specified for the job.", ?_⟩
        simp [compressor_run, hf, hl, he]
      · cases hc : compress_loop env (f :: rest) with
        | error msg =>
          refine Or.inl ⟨msg, compress_loop_error_ne_empty env _ _ hc, ?_⟩
          simp [compressor_run, hf, hl, he, hc]
        | ok names =>
          cases names with
          | nil =>
            refine Or.inl ⟨_, pdfMsgInternal_ne_empty env.err_detail, ?_⟩
            simp [compressor_run, hf, hl, he, hc]
          | cons n more =>
            cases more with
            | nil =>
              refine Or.inr ⟨n, [], [], ?_⟩
              simp [compressor_run, hf, hl, he, hc]
            | cons m rest2 =>
              refine Or.inr ⟨"compressed_files.zip", [], [], ?_⟩
              simp [compressor_run, hf, hl, he, hc]

/-- The merger branch always produces a terminal shape. -/
theorem merger_run_shape (env : PdfEnv) (j1 : PdfJobRec) :
    PdfShape j1 (merger_run env j1) := by
  by_cases h2 : j1.uploaded_files.length < 2
  · refine Or.inl ⟨_, pdfMsgInternal_ne_empty "Merging requires at least two PDF files.", ?_⟩
    simp [merger_run, h2]
  · cases hm : j1.merge_order with
    | none =>
      refine Or.inl ⟨_, pdfMsgInternal_ne_empty "Merge order is required for PDF merging jobs.", ?_⟩
      simp [merger_run, h2, hm]
    | some mo =>
      by_cases he : merge_order_falsy mo = true
      · refine Or.inl ⟨_, pdfMsgInternal_ne_empty "Merge order is required for PDF merging jobs.", ?_⟩
        simp [merger_run, h2, hm, he]
      · cases mo with
        | list names =>
          refine Or.inl ⟨_, pdfMsgInternal_ne_empty
            "the JSON object must be str, bytes or bytearray, not list", ?_⟩
          simp [merger_run, h2, hm, he]
        | str s =>
          cases hj : json_loads_list s with
          | none =>
            refine Or.inl ⟨"Invalid merge_order format: " ++ env.err_detail,
              string_append_ne_empty _ _ (by decide), ?_⟩
            simp [merger_run, h2, hm, he, hj]
          | some names =>
            by_cases hio : env.io_ok = true
            · refine Or.inr ⟨"merged_document.pdf", [], resolve_merge j1.uploaded_files names, ?_⟩
              simp [merger_run, h2, hm, he, hj, hio]
            · refine Or.inl ⟨_, pdfMsgInternal_ne_empty env.err_detail, ?_⟩
              simp [merger_run, h2, hm, he, hj, hio]

/-- The splitter branch always produces a terminal shape. -/
theorem splitter_run_shape (env : PdfEnv) (j1 : PdfJobRec) :
    PdfShape j1 (splitter_run env j1) := by
  cases hf : j1.uploaded_files with
  | nil =>
    refine Or.inl ⟨"Splitting requires exactly one PDF file.", by decide, ?_⟩
    simp [splitter_run, hf]
  | cons f rest =>
    cases rest with
    | cons g rest2 =>
      refine Or.inl ⟨"Splitting requires exactly one PDF file.", by decide, ?_⟩
      simp [splitter_run, hf]
    | nil =>
      by_cases hs : env.source_exists f.path = true
      · cases hp : j1.page_ranges with
        | none =>
          refine Or.inl ⟨"Page ranges are required for PDF splitting jobs.", by decide, ?_⟩
          simp [splitter_run, hf, hs, hp]
        | some s =>
          by_cases he : s = ""
          · refine Or.inl ⟨"Page ranges are required for PDF splitting jobs.", by decide, ?_⟩
            simp [splitter_run, hf, hs, hp, he]
          · by_cases hio : env.io_ok = true
            · cases hr : parse_page_ranges s f.pages with
              | error e =>
                refine Or.inl ⟨"Invalid page range format: " ++ e,
                  string_append_ne_empty _ _ (by decide), ?_⟩
                simp [splitter_run, hf, hs, hp, he, hio, hr]
              | ok rs =>
                refine Or.inr ⟨"split_" ++ splitextRoot (basename f.path) ++ ".zip",
                  rs.map (split_piece_name (splitextRoot (basename f.path))), [], ?_⟩
                simp [splitter_run, hf, hs, hp, he, hio, hr]
            · refine Or.inl ⟨_, pdfMsgInternal_ne_empty env.err_detail, ?_⟩
              simp [splitter_run, hf, hs, hp, he, hio]
      · refine Or.inl ⟨"Source file does not exist at " ++ pathJoin MEDIA_ROOT f.path,
          string_append_ne_empty _ _ (by decide), ?_⟩
        simp [splitter_run, hf, hs]

/-- Every invocation of the pdf task on an existing record ends with the
record either FAILED carrying a nonempty message over otherwise-unchanged
fields, or COMPLETED carrying an output URL over otherwise-unchanged
fields. -/
theorem pdf_run_shape (env : PdfEnv) (r : PdfJobRec) :
    (∃ m, m ≠ "" ∧ (process_file_task env (some r)).job =
        some { r with status := Status.FAILED, error_message := some m }) ∨
    (∃ u, (process_file_task env (some r)).job =
        some { r with status := Status.COMPLETED, output_url := some u }) := by
  have h : PdfShape { r with status := Status.PROCESSING } (process_file_task env (some r)) := by
    have heq : process_file_task env (some r) =
        (match r.tool_type with
         | PdfTool.pdf_converter => converter_run env { r with status := Status.PROCESSING }
         | PdfTool.file_compressor => compressor_run env { r with status := Status.PROCESSING }
         | PdfTool.pdf_merger => merger_run env { r with status := Status.PROCESSING }
         | PdfTool.pdf_splitter => splitter_run env { r with status := Status.PROCESSING }) := rfl
    rw [heq]
    cases r.tool_type with
    | pdf_converter => exact converter_run_shape env _
    | file_compressor => exact compressor_run_shape env _
    | pdf_merger => exact merger_run_shape env _
    | pdf_splitter => exact splitter_run_shape env _
  rcases h with ⟨m, hm, ho⟩ | ⟨n, p, d, ho⟩
  · exact Or.inl ⟨m, hm, by rw [ho]; rfl⟩
  · exact Or.inr ⟨_, by rw [ho]; rfl⟩

/-! ## Run-equation lemmas for specific branches -/

/-- A successful image run in full: PROCESSING then COMPLETED saves, one
file written into the job directory, URL mirroring the path. -/
theorem image_run_eq_ok (env : ImageEnv) (a : ImageArgs) (r : ImageJobRec)
    (hs : env.source_exists = true) (ho : env.open_ok = true)
    (hz : resize_zero_div a env = false) (hv : env.save_ok = true) :
    process_image_task env a (some r) =
      ⟨some ⟨r.id, Status.COMPLETED,
          some (pathJoin (pathJoin MEDIA_URL (pathJoin "image_tool_processed" r.id)) (image_out_name a env)),
          r.error_message⟩,
        [⟨r.id, Status.PROCESSING, r.output_url, r.error_message⟩,
         ⟨r.id, Status.COMPLETED,
          some (pathJoin (pathJoin MEDIA_URL (pathJoin "image_tool_processed" r.id)) (image_out_name a env)),
          r.error_message⟩],
        [⟨pathJoin "image_tool_processed" r.id, image_out_name a env,
          (resize_dims a.width a.height env.orig_width env.orig_height).1,
          (resize_dims a.width a.height env.orig_width env.orig_height).2,
          get_output_format a.target_format env.orig_format⟩]⟩ := by
  simp [process_image_task, hs, ho, hz, hv, image_out_name]

/-- A splitter run whose page_ranges parse succeeds, in full. -/
theorem splitter_run_eq_ok (env : PdfEnv) (id : String) (f : PdfFile) (s : String)
    (rs : List (Int × Int)) (hex : env.source_exists f.path = true) (hio : env.io_ok = true)
    (hs : s ≠ "") (hp : parse_page_ranges s f.pages = Except.ok rs) :
    process_file_task env (some (mkSplitJob id f s)) =
      pdf_complete ⟨id, PdfTool.pdf_splitter, none, none, some s, none, [f], Status.PROCESSING, none, none⟩
        ("split_" ++ splitextRoot (basename f.path) ++ ".zip")
        (rs.map (split_piece_name (splitextRoot (basename f.path)))) [] := by
  simp [process_file_task, mkSplitJob, splitter_run, hex, hio, hs, hp]

/-- A splitter run whose page_ranges parse fails, in full: FAILED record,
no pieces written, no artifact. -/
theorem splitter_run_eq_err (env : PdfEnv) (id : String) (f : PdfFile) (s e : String)
    (hex : env.source_exists f.path = true) (hio : env.io_ok = true)
    (hs : s ≠ "") (hp : parse_page_ranges s f.pages = Except.error e) :
    process_file_task env (some (mkSplitJob id f s)) =
      pdf_fail ⟨id, PdfTool.pdf_splitter, none, none, some s, none, [f], Status.PROCESSING, none, none⟩
        ("Invalid page range format: " ++ e) := by
  simp [process_file_task, mkSplitJob, splitter_run, hex, hio, hs, hp]

/-- A merger run on a record whose merge_order is decodable JSON text —
the state the task body expects — in full: always COMPLETED, appending
exactly the resolvable documents in merge_order order. -/
theorem merger_run_eq_ok (env : PdfEnv) (id : String) (files : List PdfFile) (mo : String)
    (names : List String) (h2 : ¬ files.length < 2) (hmo : mo ≠ "")
    (hj : json_loads_list mo = some names) (hio : env.io_ok = true) :
    process_file_task env (some (mkMergeJob id files mo)) =
      pdf_complete ⟨id, PdfTool.pdf_merger, none, none, none, some (MergeOrderVal.str mo), files,
          Status.PROCESSING, none, none⟩
        "merged_document.pdf" [] (resolve_merge files names) := by
  simp [process_file_task, mkMergeJob, merger_run, merge_order_falsy, h2, hmo, hj, hio]

/-- A merger run on a record whose merge_order is a nonempty parsed list —
the state the serializer actually stores — in full: the job FAILS with the
TypeError text of `json.loads` on a list, before any document is merged. -/
theorem merger_run_eq_typeerror (env : PdfEnv) (id : String) (files : List PdfFile)
    (names : List String) (h2 : ¬ files.length < 2) (hne : names.isEmpty = false) :
    process_file_task env (some (mkMergeJobSubmitted id files names)) =
      pdf_fail ⟨id, PdfTool.pdf_merger, none, none, none, some (MergeOrderVal.list names), files,
          Status.PROCESSING, none, none⟩
        (pdfMsgInternal "the JSON object must be str, bytes or bytearray, not list") := by
  simp [process_file_task, mkMergeJobSubmitted, merger_run, merge_order_falsy, h2, hne]

/-! ## Claims -/

/-- C1 (amended). For a runner invocation on a job record in its initial
submission state (PENDING with null output location and error detail), the
record the invocation leaves behind satisfies: output location non-null iff
COMPLETED, and error detail non-null iff FAILED. (As originally stated,
over arbitrary pre-states, the claim fails: the runner never clears the
other terminal field on re-delivery, see the counterexample.) -/
theorem C1_invariant_first_delivery :
    (∀ env a r j, r.status = Status.PENDING → r.output_url = none → r.error_message = none →
      (process_image_task env a (some r)).job = some j →
      ((j.output_url ≠ none ↔ j.status = Status.COMPLETED) ∧
       (j.error_message ≠ none ↔ j.status = Status.FAILED))) ∧
    (∀ env r j, r.status = Status.PENDING → r.output_url = none → r.error_message = none →
      (process_file_task env (some r)).job = some j →
      ((j.output_url ≠ none ↔ j.status = Status.COMPLETED) ∧
       (j.error_message ≠ none ↔ j.status = Status.FAILED))) := by
  constructor
  · intro env a r j _ h2 h3 hj
    rcases image_run_shape env a r with ⟨m, _, ho⟩ | ⟨u, ho⟩
    · rw [hj] at ho
      injection ho with ho
      subst ho
      constructor
      · simp [h2]
      · simp
    · rw [hj] at ho
      injection ho with ho
      subst ho
      constructor
      · simp
      · simp [h3]
  · intro env r j _ h2 h3 hj
    rcases pdf_run_shape env r with ⟨m, _, ho⟩ | ⟨u, ho⟩
    · rw [hj] at ho
      injection ho with ho
      subst ho
      constructor
      · simp [h2]
      · simp
    · rw [hj] at ho
      injection ho with ho
      subst ho
      constructor
      · simp
      · simp [h3]

/-- C1 witness: the amended invariant instantiated on a concrete pending
record and healthy environment. -/
theorem C1_witness :
    imgRecPending.status = Status.PENDING ∧ imgRecPending.output_url = none ∧
    imgRecPending.error_message = none ∧
    (process_image_task imgEnvOk imgArgsResize (some imgRecPending)).job = some c1ImgFinal ∧
    ((c1ImgFinal.output_url ≠ none ↔ c1ImgFinal.status = Status.COMPLETED) ∧
     (c1ImgFinal.error_message ≠ none ↔ c1ImgFinal.status = Status.FAILED)) :=
  ⟨rfl, rfl, rfl, by decide,
   C1_invariant_first_delivery.1 imgEnvOk imgArgsResize imgRecPending c1ImgFinal rfl rfl rfl
     (by decide)⟩

/-- C1 counterexample. Deliver the job once with the source file missing
(run ends FAILED with an error message), then deliver the same record again
with the file present: the second run completes and sets the output
location, but the error detail from the first run is never cleared, so the
final record is COMPLETED with a non-null error detail — refuting
`error detail non-null iff status = FAILED` after a runner invocation. -/
theorem C1_counterexample :
    (process_image_task imgEnvOk imgArgsResize
        (process_image_task imgEnvNoFile imgArgsResize (some imgRecPending)).job).job =
      some ⟨"j1", Status.COMPLETED, some "/media/image_tool_processed/j1/processed_photo.png",
        some "Processing failed: Source file not found or accessible. Error: gone"⟩ ∧
    ¬ ((some "Processing failed: Source file not found or accessible. Error: gone" ≠
        (none : Option String)) ↔ Status.COMPLETED = Status.FAILED) :=
  ⟨by decide, by decide⟩

/-- C2: the claimed terminal-state guard does not exist. Re-delivering a
COMPLETED job id to either runner performs status writes — the first of
them PROCESSING, i.e. a transition out of COMPLETED — and writes the
output file again, refuting `no status write, no second output file`.
(Both tasks set status = PROCESSING immediately after fetching the record,
image_tool/tasks.py 53-55, pdf_tool/tasks.py 35-37, with no status check.) -/
theorem C2_no_terminal_guard :
    ((process_image_task imgEnvOk imgArgsResize (some imgRecCompleted)).saves.map
        (fun s => s.status) = [Status.PROCESSING, Status.COMPLETED]) ∧
    (process_image_task imgEnvOk imgArgsResize (some imgRecCompleted)).outputs.length = 1 ∧
    ((process_file_task pdfEnvOk (some pdfRecCompleted)).saves.map
        (fun s => s.status) = [Status.PROCESSING, Status.COMPLETED]) ∧
    (process_file_task pdfEnvOk (some pdfRecCompleted)).final_files = ["split_doc.zip"] := by
  refine ⟨by decide, by decide, by decide, by decide⟩

/-- C3. Exceptions are contained: a run on a missing record aborts with no
writes and no exception; a run on an existing record always returns with
the record in a terminal state (never PROCESSING), and a FAILED record
always carries a nonempty human-readable error message. -/
theorem C3_runner_terminal :
    (∀ env a, process_image_task env a none = ⟨none, [], []⟩) ∧
    (∀ env, process_file_task env none = ⟨none, [], [], [], []⟩) ∧
    (∀ env a r, ∃ j, (process_image_task env a (some r)).job = some j ∧
      (j.status = Status.COMPLETED ∨ j.status = Status.FAILED) ∧
      (j.status = Status.FAILED → ∃ m, j.error_message = some m ∧ m ≠ "")) ∧
    (∀ env r, ∃ j, (process_file_task env (some r)).job = some j ∧
      (j.status = Status.COMPLETED ∨ j.status = Status.FAILED) ∧
      (j.status = Status.FAILED → ∃ m, j.error_message = some m ∧ m ≠ "")) := by
  refine ⟨fun env a => rfl, fun env => rfl, ?_, ?_⟩
  · intro env a r
    rcases image_run_shape env a r with ⟨m, hm, ho⟩ | ⟨u, ho⟩
    · exact ⟨_, ho, Or.inr rfl, fun _ => ⟨m, rfl, hm⟩⟩
    · refine ⟨_, ho, Or.inl rfl, fun hc => ?_⟩
      simp at hc
  · intro env r
    rcases pdf_run_shape env r with ⟨m, hm, ho⟩ | ⟨u, ho⟩
    · exact ⟨_, ho, Or.inr rfl, fun _ => ⟨m, rfl, hm⟩⟩
    · refine ⟨_, ho, Or.inl rfl, fun hc => ?_⟩
      simp at hc

/-- C3 witness: the containment statements instantiated on concrete
environments and records (healthy and missing-file cases). -/
theorem C3_witness :
    process_image_task imgEnvOk imgArgsResize none = ⟨none, [], []⟩ ∧
    process_file_task pdfEnvOk none = ⟨none, [], [], [], []⟩ ∧
    (∃ j, (process_image_task imgEnvNoFile imgArgsResize (some imgRecPending)).job = some j ∧
      (j.status = Status.COMPLETED ∨ j.status = Status.FAILED) ∧
      (j.status = Status.FAILED → ∃ m, j.error_message = some m ∧ m ≠ "")) ∧
    (∃ j, (process_file_task pdfEnvOk (some (mkSplitJob "j2" doc12 "13"))).job = some j ∧
      (j.status = Status.COMPLETED ∨ j.status = Status.FAILED) ∧
      (j.status = Status.FAILED → ∃ m, j.error_message = some m ∧ m ≠ "")) :=
  ⟨C3_runner_terminal.1 imgEnvOk imgArgsResize, C3_runner_terminal.2.1 pdfEnvOk,
   C3_runner_terminal.2.2.1 imgEnvNoFile imgArgsResize imgRecPending,
   C3_runner_terminal.2.2.2 pdfEnvOk (mkSplitJob "j2" doc12 "13")⟩

/-- C4 (amended). The per-session daily counter is incremented by the
permission check on every unauthenticated POST that is below the quota —
before, and so regardless of, parameter validation: an accepted submission
(202) and a validation failure (400) both consume quota. At or above the
quota the POST is rejected (403) with the counter unchanged; authenticated
callers never touch the counter. (As originally stated — increment only on
202 — the claim fails, see the counterexample.) -/
theorem C4_quota_counts_all_posts :
    ∀ today valid counts,
      (getCount counts today < UNAUTH_CONVERSION_LIMIT →
        image_conversion_post false today valid counts =
          ((if valid then 202 else 400), setCount counts today (getCount counts today + 1))) ∧
      (UNAUTH_CONVERSION_LIMIT ≤ getCount counts today →
        image_conversion_post false today valid counts = (403, counts)) ∧
      (image_conversion_post true today valid counts = ((if valid then 202 else 400), counts)) := by
  intro today valid counts
  refine ⟨?_, ?_, ?_⟩
  · intro hlt
    cases valid <;> simp [image_conversion_post, has_permission, Nat.not_le.mpr hlt]
  · intro hge
    simp [image_conversion_post, has_permission, hge]
  · cases valid <;> simp [image_conversion_post, has_permission]

/-- C4 witness: the amended quota behaviour at concrete sessions — a first
POST of the day (valid) is accepted and counts, a third POST is rejected
with the counter unchanged. -/
theorem C4_witness :
    (getCount [] "2026-10-12" < UNAUTH_CONVERSION_LIMIT ∧
      image_conversion_post false "2026-10-12" true [] = (202, [("2026-10-12", 1)])) ∧
    (UNAUTH_CONVERSION_LIMIT ≤ getCount [("2026-10-12", 2)] "2026-10-12" ∧
      image_conversion_post false "2026-10-12" true [("2026-10-12", 2)] =
        (403, [("2026-10-12", 2)])) :=
  ⟨⟨by decide, (C4_quota_counts_all_posts "2026-10-12" true []).1 (by decide)⟩,
   ⟨by decide, (C4_quota_counts_all_posts "2026-10-12" true [("2026-10-12", 2)]).2.1 (by decide)⟩⟩

/-- C4 counterexample. An unauthenticated POST whose parameters fail
validation returns 400 yet leaves the day's counter at 1, not 0: the
permission check increments before the serializer runs — refuting
`a POST that fails validation leaves the counter unchanged`. -/
theorem C4_counterexample :
    image_conversion_post false "2026-10-12" false [] = (400, [("2026-10-12", 1)]) ∧
    getCount [("2026-10-12", 1)] "2026-10-12" ≠ getCount ([] : Counts) "2026-10-12" := by
  refine ⟨by decide, by decide⟩

/-- C5 (amended). With exactly one of width/height given, the code derives
the other dimension by truncation — Python `int(...)`, i.e. the floor
`source_other * given / source_given` — not by rounding; on the spec's own
example (width 200 on a 400 by 300 source) truncation and rounding agree
and the output height is 150; with both given the output has exactly the
given dimensions. -/
theorem C5_resize_truncates :
    (∀ w ow oh, resize_dims (some w) none ow oh = (w, oh * w / ow)) ∧
    (∀ h ow oh, resize_dims none (some h) ow oh = (ow * h / oh, h)) ∧
    (∀ w h ow oh, resize_dims (some w) (some h) ow oh = (w, h)) ∧
    resize_dims (some 200) none 400 300 = (200, 150) ∧
    (∀ env a r, env.source_exists = true → env.open_ok = true → env.save_ok = true →
      resize_zero_div a env = false →
      (process_image_task env a (some r)).outputs.map (fun s => (s.width, s.height)) =
        [resize_dims a.width a.height env.orig_width env.orig_height]) := by
  refine ⟨fun w ow oh => rfl, fun h ow oh => rfl, fun w h ow oh => rfl, by decide, ?_⟩
  intro env a r hs ho hv hz
  rw [image_run_eq_ok env a r hs ho hz hv]
  simp

/-- C5 witness: the task-level conjunct instantiated on the healthy 400 by
300 environment with width 200 — the written file is 200 by 150. -/
theorem C5_witness :
    imgEnvOk.source_exists = true ∧ imgEnvOk.open_ok = true ∧ imgEnvOk.save_ok = true ∧
    resize_zero_div imgArgsResize imgEnvOk = false ∧
    (process_image_task imgEnvOk imgArgsResize (some imgRecPending)).outputs.map
        (fun s => (s.width, s.height)) =
      [resize_dims imgArgsResize.width imgArgsResize.height imgEnvOk.orig_width imgEnvOk.orig_height] :=
  ⟨rfl, rfl, rfl, by decide,
   C5_resize_truncates.2.2.2.2 imgEnvOk imgArgsResize imgRecPending rfl rfl rfl (by decide)⟩

/-- C5 counterexample. On a 4 by 3 source with width 2, the code writes a
2 by 1 image (`int(3 * (2/4)) = int(1.5) = 1`), while the claim's formula
`round(3 * (2/4)) = round(1.5) = 2` prescribes height 2 — refuting the
rounding formula as stated. -/
theorem C5_counterexample :
    (process_image_task imgEnv43 imgArgsW2 (some imgRecPending)).outputs.map
        (fun s => (s.width, s.height)) = [(2, 1)] ∧
    spec_other_dim 4 3 2 = 2 ∧ ((1 : ℤ) ≠ 2) := by
  refine ⟨by decide, ?_, by decide⟩
  norm_num [spec_other_dim, round_eq]

/-- C6 (amended). page_ranges is parsed as comma-separated tokens with
whitespace and empty tokens ignored, single pages and inclusive ranges
recognised, any token whose halves Python `int()` rejects and any
start>end / start<1 / end>page-count interval failing the entire job with
zero output files, and otherwise one `..._page_N.pdf` / `..._pages_N-M.pdf`
file per interval archived into one zip — except that the tokens are
parsed with Python `int()` semantics, which also accepts an explicit
leading sign (`"+2"` is accepted as page 2 rather than rejected as
malformed; see the counterexample). -/
theorem C6_split_ranges :
    parse_page_ranges "1-5, 8, 10-12" 12 = Except.ok [(1, 5), (8, 8), (10, 12)] ∧
    parse_page_ranges "1 - 5,,8," 12 = Except.ok [(1, 5), (8, 8)] ∧
    exceptOk (parse_page_ranges "13" 12) = false ∧
    exceptOk (parse_page_ranges "0" 12) = false ∧
    exceptOk (parse_page_ranges "5-3" 12) = false ∧
    exceptOk (parse_page_ranges "abc" 12) = false ∧
    exceptOk (parse_page_ranges "1-" 12) = false ∧
    (∀ env id f s e, env.source_exists f.path = true → env.io_ok = true → s ≠ "" →
      parse_page_ranges s f.pages = Except.error e →
      (process_file_task env (some (mkSplitJob id f s))).job =
        some ⟨id, PdfTool.pdf_splitter, none, none, some s, none, [f], Status.FAILED, none,
          some ("Invalid page range format: " ++ e)⟩ ∧
      (process_file_task env (some (mkSplitJob id f s))).split_pieces = [] ∧
      (process_file_task env (some (mkSplitJob id f s))).final_files = []) ∧
    (∀ env id f s rs, env.source_exists f.path = true → env.io_ok = true → s ≠ "" →
      parse_page_ranges s f.pages = Except.ok rs →
      (process_file_task env (some (mkSplitJob id f s))).job =
        some ⟨id, PdfTool.pdf_splitter, none, none, some s, none, [f], Status.COMPLETED,
          some (pathJoin (pathJoin MEDIA_URL (pathJoin "pdf_tool_processed" id))
            ("split_" ++ splitextRoot (basename f.path) ++ ".zip")), none⟩ ∧
      (process_file_task env (some (mkSplitJob id f s))).split_pieces =
        rs.map (split_piece_name (splitextRoot (basename f.path))) ∧
      (process_file_task env (some (mkSplitJob id f s))).final_files =
        ["split_" ++ splitextRoot (basename f.path) ++ ".zip"]) := by
  refine ⟨by decide, by decide, by decide, by decide, by decide, by decide, by decide, ?_, ?_⟩
  · intro env id f s e hex hio hs hp
    rw [splitter_run_eq_err env id f s e hex hio hs hp]
    exact ⟨rfl, rfl, rfl⟩
  · intro env id f s rs hex hio hs hp
    rw [splitter_run_eq_ok env id f s rs hex hio hs hp]
    exact ⟨rfl, rfl, rfl⟩

/-- C6 witness: the all-or-nothing split behaviour on the 12-page fixture —
an out-of-bounds token fails with zero outputs, the spec's example range
string yields the three named interval files zipped. -/
theorem C6_witness :
    (pdfEnvOk.source_exists doc12.path = true ∧ pdfEnvOk.io_ok = true ∧ ("13" : String) ≠ "" ∧
      parse_page_ranges "13" doc12.pages =
        Except.error "Page 13 is out of bounds. PDF has 12 pages." ∧
      (process_file_task pdfEnvOk (some (mkSplitJob "j2" doc12 "13"))).split_pieces = [] ∧
      (process_file_task pdfEnvOk (some (mkSplitJob "j2" doc12 "13"))).final_files = []) ∧
    (parse_page_ranges "1-5, 8, 10-12" doc12.pages = Except.ok [(1, 5), (8, 8), (10, 12)] ∧
      (process_file_task pdfEnvOk (some (mkSplitJob "j2" doc12 "1-5, 8, 10-12"))).split_pieces =
        [(1, 5), (8, 8), (10, 12)].map (split_piece_name (splitextRoot (basename doc12.path))) ∧
      (process_file_task pdfEnvOk (some (mkSplitJob "j2" doc12 "1-5, 8, 10-12"))).final_files =
        ["split_" ++ splitextRoot (basename doc12.path) ++ ".zip"]) :=
  ⟨⟨rfl, rfl, by decide, by decide,
    (C6_split_ranges.2.2.2.2.2.2.2.1 pdfEnvOk "j2" doc12 "13"
      "Page 13 is out of bounds. PDF has 12 pages." rfl rfl (by decide) (by decide)).2.1,
    (C6_split_ranges.2.2.2.2.2.2.2.1 pdfEnvOk "j2" doc12 "13"
      "Page 13 is out of bounds. PDF has 12 pages." rfl rfl (by decide) (by decide)).2.2⟩,
   ⟨by decide,
    (C6_split_ranges.2.2.2.2.2.2.2.2 pdfEnvOk "j2" doc12 "1-5, 8, 10-12"
      [(1, 5), (8, 8), (10, 12)] rfl rfl (by decide) (by decide)).2.1,
    (C6_split_ranges.2.2.2.2.2.2.2.2 pdfEnvOk "j2" doc12 "1-5, 8, 10-12"
      [(1, 5), (8, 8), (10, 12)] rfl rfl (by decide) (by decide)).2.2⟩⟩

/-- C6 counterexample. The token `"+2"` is not a bare positive integer and
not a start-end pair, so under the claim's grammar the job must fail with
zero output files; but Python `int("+2")` is 2, so the code completes the
job and produces the page-2 output — refuting `if any token is malformed
the entire job fails with zero output files`. -/
theorem C6_counterexample :
    spec_token_ok "+2" = false ∧
    (process_file_task pdfEnvOk (some (mkSplitJob "j4" doc3 "+2"))).job =
      some ⟨"j4", PdfTool.pdf_splitter, none, none, some "+2", none, [doc3], Status.COMPLETED,
        some "/media/pdf_tool_processed/j4/split_doc.zip", none⟩ ∧
    (process_file_task pdfEnvOk (some (mkSplitJob "j4" doc3 "+2"))).split_pieces =
      ["doc_page_2.pdf"] := by
  refine ⟨by decide, by decide, by decide⟩

/-- C7 (amended). Outputs live under a job-id-scoped subdirectory mirrored
by the public URL root, and single-file outputs are prefixed by operation —
but the image tool uses the prefix `processed_` for all three of its
operations (there is no `resized_` prefix anywhere); `converted_` and
`compressed_` belong to the pdf tool, whose merge output is the fixed name
`merged_document.pdf` and whose archives are `converted_<base>.zip`,
`split_<base>.zip` and the fixed `compressed_files.zip`. -/
theorem C7_output_naming :
    (∀ env a r, env.source_exists = true → env.open_ok = true → env.save_ok = true →
      resize_zero_div a env = false →
      (process_image_task env a (some r)).outputs.map (fun s => s.name) =
        ["processed_" ++ splitextRoot (basename a.file_path) ++ "." ++
          pyLower (get_output_format a.target_format env.orig_format)] ∧
      (process_image_task env a (some r)).outputs.map (fun s => s.rel_dir) =
        [pathJoin "image_tool_processed" r.id] ∧
      (process_image_task env a (some r)).job =
        some ⟨r.id, Status.COMPLETED,
          some (pathJoin (pathJoin MEDIA_URL (pathJoin "image_tool_processed" r.id)) (image_out_name a env)),
          r.error_message⟩) ∧
    (process_file_task pdfEnvOk (some (mkConvJob "j5" doc12 "docx"))).final_files =
      ["converted_doc.docx"] ∧
    (process_file_task pdfEnvOk (some (mkConvJob "j5" doc12 "docx"))).job =
      some ⟨"j5", PdfTool.pdf_converter, some "docx", none, none, none, [doc12], Status.COMPLETED,
        some "/media/pdf_tool_processed/j5/converted_doc.docx", none⟩ ∧
    (process_file_task pdfEnvOk (some (mkConvJob "j5" doc12 "jpg"))).final_files =
      ["converted_doc.zip"] ∧
    (process_file_task pdfEnvOk (some (mkCompJob "j7" [doc12] "medium"))).final_files =
      ["compressed_doc.pdf"] ∧
    (process_file_task pdfEnvOk (some (mkCompJob "j7" [fileA, fileB] "medium"))).final_files =
      ["compressed_files.zip"] ∧
    (process_file_task pdfEnvOk (some (mkSplitJob "j2" doc12 "1-5"))).final_files =
      ["split_doc.zip"] ∧
    (process_file_task pdfEnvOk (some (mkMergeJob "j3" [fileA, fileB]
        "[\"a.pdf\", \"b.pdf\"]"))).final_files = ["merged_document.pdf"] := by
  refine ⟨?_, by decide, by decide, by decide, by decide, by decide, by decide, by decide⟩
  intro env a r hs ho hv hz
  rw [image_run_eq_ok env a r hs ho hz hv]
  exact ⟨by simp [image_out_name], by simp, rfl⟩

/-- C7 witness: the image conjunct instantiated on the healthy fixture —
the resize output is `processed_photo.png` under
`image_tool_processed/j1`, with the URL mirroring that path. -/
theorem C7_witness :
    imgEnvOk.source_exists = true ∧ imgEnvOk.open_ok = true ∧ imgEnvOk.save_ok = true ∧
    resize_zero_div imgArgsResize imgEnvOk = false ∧
    (process_image_task imgEnvOk imgArgsResize (some imgRecPending)).outputs.map
        (fun s => s.name) =
      ["processed_" ++ splitextRoot (basename imgArgsResize.file_path) ++ "." ++
        pyLower (get_output_format imgArgsResize.target_format imgEnvOk.orig_format)] :=
  ⟨rfl, rfl, rfl, by decide,
   (C7_output_naming.1 imgEnvOk imgArgsResize imgRecPending rfl rfl rfl (by decide)).1⟩

/-- C7 counterexample. A completed resize job's single-file output is named
`processed_photo.png`, not `resized_photo.png` — refuting the claimed
`resized_` prefix for resize outputs. -/
theorem C7_counterexample :
    (process_image_task imgEnvOk imgArgsResize (some imgRecPending)).outputs.map
        (fun s => s.name) = ["processed_photo.png"] ∧
    ("processed_photo.png" : String) ≠ "resized_photo.png" := by
  refine ⟨by decide, by decide⟩

/-- C8 (code_bug). The claimed behaviour — inputs concatenated strictly in
merge_order order, listed-but-absent names skipped with a warning, never
fatal — is what the merge loop (tasks.py 239-243) implements, and
`resolve_merge` shows order [a.pdf, missing.pdf, b.pdf] over uploads a, b
resolving to a then b. But the serializer stores merge_order as a parsed
list, and on that reachable record `json.loads(job.merge_order)` raises
TypeError (uncaught by the JSONDecodeError handler), so the API-submitted
merge job ends FAILED with the TypeError text and merges nothing; the
claimed merge only happens on a text-valued (double-encoded) merge_order. -/
theorem C8_merge_typeerror :
    serializer_merge_order (some "[\"a.pdf\", \"missing.pdf\", \"b.pdf\"]") =
      Except.ok (some (MergeOrderVal.list ["a.pdf", "missing.pdf", "b.pdf"])) ∧
    (process_file_task pdfEnvOk (some (mkMergeJobSubmitted "j3" [fileA, fileB]
        ["a.pdf", "missing.pdf", "b.pdf"]))).job =
      some ⟨"j3", PdfTool.pdf_merger, none, none, none,
        some (MergeOrderVal.list ["a.pdf", "missing.pdf", "b.pdf"]), [fileA, fileB],
        Status.FAILED, none,
        some "Processing failed due to an internal error: the JSON object must be str, bytes or bytearray, not list"⟩ ∧
    (process_file_task pdfEnvOk (some (mkMergeJobSubmitted "j3" [fileA, fileB]
        ["a.pdf", "missing.pdf", "b.pdf"]))).merged_docs = [] ∧
    resolve_merge [fileA, fileB] ["a.pdf", "missing.pdf", "b.pdf"] = [fileA, fileB] ∧
    (process_file_task pdfEnvOk (some (mkMergeJob "j3" [fileA, fileB]
        "[\"a.pdf\", \"missing.pdf\", \"b.pdf\"]"))).merged_docs = [fileA, fileB] := by
  refine ⟨by decide, by decide, by decide, by decide, by decide⟩

/-- C9. When no target_format is supplied and the detected source format is
missing or outside the six FORMAT_CHOICES, the output format silently
becomes JPEG (image_tool/tasks.py 88-99): it neither fails nor preserves
the original format. -/
theorem C9_default_jpeg :
    ∀ o : Option String,
      (o = none ∨ ∀ s, o = some s → FORMAT_CHOICES.contains (pyUpper s) = false) →
      get_output_format none o = "JPEG" := by
  intro o h
  cases o with
  | none => rfl
  | some s =>
    rcases h with h | h
    · exact absurd h (by simp)
    · have hs := h s rfl
      simp [get_output_format, hs]
      intro hmem
      exact absurd hmem (by simpa using hs)

/-- C9 witness: a detected format of ICO (outside the six choices) falls
back to JPEG, as does a missing detected format. -/
theorem C9_witness :
    ((some "ICO" = (none : Option String)) ∨
      ∀ s, some "ICO" = some s → FORMAT_CHOICES.contains (pyUpper s) = false) ∧
    get_output_format none (some "ICO") = "JPEG" ∧
    get_output_format none none = "JPEG" :=
  ⟨Or.inr (fun s hs => by cases hs; decide),
   C9_default_jpeg (some "ICO") (Or.inr (fun s hs => by cases hs; decide)),
   C9_default_jpeg none (Or.inl rfl)⟩

/-- C10 (code_bug). The merge loop indeed never re-validates after
skipping unmatched names (`resolve_merge` of order [x.pdf] over uploads a,
b is empty, and on a text-valued merge_order the job completes with a
zero-document merged_document.pdf) — but the reachable record of an
API-submitted merge job carries the serializer-parsed list, on which
`json.loads` raises TypeError and the job ends FAILED with no output
before the merge loop runs, so such a job does not run to COMPLETED. -/
theorem C10_merge_typeerror :
    serializer_merge_order (some "[\"x.pdf\"]") =
      Except.ok (some (MergeOrderVal.list ["x.pdf"])) ∧
    (process_file_task pdfEnvOk (some (mkMergeJobSubmitted "j6" [fileA, fileB] ["x.pdf"]))).job =
      some ⟨"j6", PdfTool.pdf_merger, none, none, none, some (MergeOrderVal.list ["x.pdf"]),
        [fileA, fileB], Status.FAILED, none,
        some "Processing failed due to an internal error: the JSON object must be str, bytes or bytearray, not list"⟩ ∧
    (process_file_task pdfEnvOk (some
        (mkMergeJobSubmitted "j6" [fileA, fileB] ["x.pdf"]))).final_files = [] ∧
    resolve_merge [fileA, fileB] ["x.pdf"] = [] ∧
    (process_file_task pdfEnvOk (some (mkMergeJob "j6" [fileA, fileB] "[\"x.pdf\"]"))).job =
      some ⟨"j6", PdfTool.pdf_merger, none, none, none, some (MergeOrderVal.str "[\"x.pdf\"]"),
        [fileA, fileB], Status.COMPLETED,
        some "/media/pdf_tool_processed/j6/merged_document.pdf", none⟩ ∧
    ((process_file_task pdfEnvOk (some (mkMergeJob "j6" [fileA, fileB]
        "[\"x.pdf\"]"))).merged_docs.map (fun f => f.pages)).sum = 0 := by
  refine ⟨by decide, by decide, by decide, by decide, by decide, by decide⟩

end OpusTools
